import Mathlib

/-!
# List context configuration of the lazygit GUI (`pkg/gui/list_context_config.go`)

A shallow embedding of the list-context constructors, of `withDiffModeCheck`
and of `shouldShowGraph`.

Conventions of the embedding:

* the receiver `gui *Gui` is passed explicitly as a value of type `Gui P`;
* a Go `func() error` that may mutate the GUI is a state transformer over a
  `World`, which pairs the GUI with a ghost log of the routines invoked;
* types, constants and functions declared in other packages or other files are
  parameters: the types and constants are gathered in `Pkg`, the functions in `Env`;
* `log.Fatalf` terminates the process; a function that can reach it returns
  `Except String _`, the error case carrying the formatted message;
* a nilable pointer is an `Option`, a Go `int` is an `Int`, a slice is a `List`.
-/

namespace Lazygit

/-- Go `error` value: `none` stands for `nil`. -/
abbrev GoError := Option String

/-- Types and constants this file uses but which are declared in other packages
(`models`, `filetree`, `gocui`, `context`, `types`, `git_commands`, `patch`). -/
structure Pkg where
  FileNode : Type
  CommitFileNode : Type
  Branch : Type
  Remote : Type
  RemoteBranch : Type
  Tag : Type
  Commit : Type
  StashEntry : Type
  SubmoduleConfig : Type
  Suggestion : Type
  FileTreeViewModel : Type
  CommitFileTreeViewModel : Type
  BisectInfo : Type
  PatchManager : Type
  View : Type
  ShaMap : Type
  OptionsMap : Type
  OnFocusOpts : Type
  IListPanelState : Type
  ContextCommon : Type
  /-- Field `Sha` of `models.Commit`. -/
  Sha : Commit → String
  FILES_CONTEXT_KEY : String
  LOCAL_BRANCHES_CONTEXT_KEY : String
  REMOTES_CONTEXT_KEY : String
  REMOTE_BRANCHES_CONTEXT_KEY : String
  BRANCH_COMMITS_CONTEXT_KEY : String
  SUB_COMMITS_CONTEXT_KEY : String
  REFLOG_COMMITS_CONTEXT_KEY : String
  STASH_CONTEXT_KEY : String
  COMMIT_FILES_CONTEXT_KEY : String
  SUBMODULES_CONTEXT_KEY : String
  SUGGESTIONS_CONTEXT_KEY : String

/-- Modelled from the spec: the screen-mode enum is declared outside this file
("an enum indicating normal vs. maximized layout"); this file only compares it
with `SCREEN_NORMAL`. -/
inductive WindowMaximisation where
  | SCREEN_NORMAL
  | SCREEN_HALF
  | SCREEN_FULL
  deriving DecidableEq, Repr

/-- Modelled from the spec: the context kind enum `{SideContext, PersistentPopup,
TemporaryPopup}` of package `types`. -/
inductive ContextKind where
  | SIDE_CONTEXT
  | PERSISTENT_POPUP
  | TEMPORARY_POPUP
  deriving DecidableEq, Repr

/-- Modelled from the spec: the diff-mode state `{active: boolean, ref: string}`,
declared outside this file; `Ref` is the field read here and `active` is what the
method `Active()` reports. -/
structure Diffing where
  Ref : String
  active : Bool
  deriving DecidableEq, Repr

/-- Method `Diffing.Active()`. -/
def Diffing.Active (d : Diffing) : Bool := d.active

/-- Modelled from the spec: the filtering-mode state (`filtering.active`), declared
outside this file; `active` is what the method `Active()` reports. -/
structure Filtering where
  active : Bool
  deriving DecidableEq, Repr

/-- Method `Filtering.Active()`. -/
def Filtering.Active (m : Filtering) : Bool := m.active

/-- The part of `gui.State.Modes` read in this file. -/
structure Modes where
  Diffing : Diffing
  Filtering : Filtering
  deriving DecidableEq, Repr

/-- The part of `UserConfig.Git.Log` read in this file. -/
structure LogConfig where
  ShowGraph : String
  deriving DecidableEq, Repr

/-- The part of `UserConfig.Git` read in this file. -/
structure GitConfig where
  ParseEmoji : Bool
  Log : LogConfig
  deriving DecidableEq, Repr

/-- The part of `UserConfig` read in this file. -/
structure UserConfig where
  Git : GitConfig
  deriving DecidableEq, Repr

/-- The value `gui.c`, as far as this file reads it (`gui.c.UserConfig`); the
remainder of the common helper is the external `common`. -/
structure HelperCommon (P : Pkg) where
  UserConfig : UserConfig
  common : P.ContextCommon

/-- The panel states `gui.State.Panels`. -/
structure Panels (P : Pkg) where
  Menu : P.IListPanelState
  Files : P.IListPanelState
  Branches : P.IListPanelState
  Remotes : P.IListPanelState
  RemoteBranches : P.IListPanelState
  Commits : P.IListPanelState
  SubCommits : P.IListPanelState
  ReflogCommits : P.IListPanelState
  Stash : P.IListPanelState
  CommitFiles : P.IListPanelState
  Submodules : P.IListPanelState
  Suggestions : P.IListPanelState

/-- The part of `gui.State` read by the closures of this file. -/
structure GuiState (P : Pkg) where
  FileTreeViewModel : P.FileTreeViewModel
  CommitFileTreeViewModel : P.CommitFileTreeViewModel
  Branches : List P.Branch
  Remotes : List P.Remote
  RemoteBranches : List P.RemoteBranch
  Tags : List P.Tag
  Commits : List P.Commit
  SubCommits : List P.Commit
  FilteredReflogCommits : List P.Commit
  StashEntries : List P.StashEntry
  Submodules : List P.SubmoduleConfig
  Suggestions : List P.Suggestion
  Modes : Modes
  ScreenMode : WindowMaximisation
  BisectInfo : P.BisectInfo
  Panels : Panels P

/-- The views `gui.Views` read in this file. -/
structure Views (P : Pkg) where
  Menu : P.View
  Branches : P.View

/-- The value `gui.git.Patch`. -/
structure PatchCommands (P : Pkg) where
  PatchManager : P.PatchManager

/-- The value `gui.git`. -/
structure GitCommand (P : Pkg) where
  Patch : PatchCommands P

/-- The receiver `gui *Gui`, as far as this file reads it. -/
structure Gui (P : Pkg) where
  State : GuiState P
  Views : Views P
  c : HelperCommon P
  git : GitCommand P

/-- The methods of `Gui` with signature `func() error` that this file passes around
as hooks; their bodies live in other files. -/
inductive Routine where
  | renderDiff
  | filesRenderToMain
  | branchesRenderToMain
  | remotesRenderToMain
  | remoteBranchesRenderToMain
  | tagsRenderToMain
  | branchCommitsRenderToMain
  | subCommitsRenderToMain
  | reflogCommitsRenderToMain
  | stashRenderToMain
  | commitFilesRenderToMain
  | submodulesRenderToMain
  | onFocusFile
  | onCommitFocus
  | onCommitFileFocus
  deriving DecidableEq, Repr

/-- The GUI together with a ghost log of the external routines invoked so far, in
order of invocation. -/
structure World (P : Pkg) where
  gui : Gui P
  calls : List Routine

/-- A Go `func() error` closed over the receiver. -/
abbrev Action (P : Pkg) := World P → GoError × World P

/-- A Go `func(opts ...types.OnFocusOpts) error` closed over the receiver. -/
abbrev Hook (P : Pkg) := List P.OnFocusOpts → Action P

/-- Run the body of an external routine on the GUI and record the invocation. -/
def instrument {P : Pkg} (r : Routine) (body : Gui P → GoError × Gui P) : Action P :=
  fun w => ((body w.gui).1, { gui := (body w.gui).2, calls := w.calls ++ [r] })

/-- The interface `types.ListItem`: the domain items a panel can select. -/
inductive ListItem (P : Pkg) where
  | fileNode (n : P.FileNode)
  | commitFileNode (n : P.CommitFileNode)
  | branch (b : P.Branch)
  | remote (r : P.Remote)
  | remoteBranch (b : P.RemoteBranch)
  | commit (c : P.Commit)
  | stashEntry (s : P.StashEntry)
  | submodule (s : P.SubmoduleConfig)

/-- The ten arguments of `presentation.GetCommitListDisplayStrings`, in order. -/
structure CommitListArgs (P : Pkg) where
  commits : List P.Commit
  fullDescription : Bool
  cherryPickedCommitShaMap : P.ShaMap
  diffName : String
  parseEmoji : Bool
  selectedCommitSha : String
  startIdx : Int
  length : Int
  showGraph : Bool
  bisectInfo : P.BisectInfo

/-- Functions this file calls but which are defined elsewhere: the bodies of the
hook routines, the `presentation` row formatters, the selected-item getters and
other helpers. -/
structure Env (P : Pkg) where
  method : Routine → Gui P → GoError × Gui P
  OnFocusWrapper : Action P → Hook P
  getMenuOptions : Gui P → P.OptionsMap
  LinesHeight : P.View → Int
  FileTreeGetItemsLength : P.FileTreeViewModel → Int
  CommitFileTreeGetItemsLength : P.CommitFileTreeViewModel → Int
  currentContextKey : Gui P → String
  cherryPickedCommitShaMap : Gui P → P.ShaMap
  NewNullBisectInfo : P.BisectInfo
  FgRedSprint : String → String
  RenderFileTree : P.FileTreeViewModel → String → List P.SubmoduleConfig → List String
  RenderCommitFileTree : P.CommitFileTreeViewModel → String → P.PatchManager → List String
  GetBranchListDisplayStrings : List P.Branch → Bool → String → List (List String)
  GetRemoteListDisplayStrings : List P.Remote → String → List (List String)
  GetRemoteBranchListDisplayStrings : List P.RemoteBranch → String → List (List String)
  GetTagListDisplayStrings : List P.Tag → String → List (List String)
  GetCommitListDisplayStrings : CommitListArgs P → List (List String)
  GetReflogCommitListDisplayStrings :
    List P.Commit → Bool → P.ShaMap → String → Bool → List (List String)
  GetStashEntryListDisplayStrings : List P.StashEntry → String → List (List String)
  GetSubmoduleListDisplayStrings : List P.SubmoduleConfig → List (List String)
  GetSuggestionListDisplayStrings : List P.Suggestion → List (List String)
  getSelectedFileNode : Gui P → Option P.FileNode
  getSelectedBranch : Gui P → Option P.Branch
  getSelectedRemote : Gui P → Option P.Remote
  getSelectedRemoteBranch : Gui P → Option P.RemoteBranch
  getSelectedLocalCommit : Gui P → Option P.Commit
  getSelectedSubCommit : Gui P → Option P.Commit
  getSelectedReflogCommit : Gui P → Option P.Commit
  getSelectedStashEntry : Gui P → Option P.StashEntry
  getSelectedCommitFileNode : Gui P → Option P.CommitFileNode
  getSelectedSubmodule : Gui P → Option P.SubmoduleConfig

/-- Invocation of the method `gui.r()` for an external routine `r`. -/
def Env.invoke {P : Pkg} (env : Env P) (r : Routine) : Action P :=
  instrument r (env.method r)

/-- The options of `context.NewBaseContext`, which the base context stores. -/
structure BaseContext (P : Pkg) where
  ViewName : String
  WindowName : String
  Key : String
  Kind : ContextKind
  OnGetOptionsMap : Option (Gui P → P.OptionsMap)

/-- The struct `ListContext`; the field `Gui` is the receiver, passed explicitly to
every closure. A field left out of the struct literal is `none`
(or `false` for `RenderSelection`). -/
structure ListContext (P : Pkg) where
  BaseContext : BaseContext P
  GetItemsLength : Gui P → Int
  OnGetPanelState : Gui P → P.IListPanelState
  OnFocus : Option (Hook P)
  OnRenderToMain : Option (Hook P)
  GetDisplayStrings : Option (Gui P → Int → Int → Except String (List (List String)))
  SelectedItem : Option (Gui P → Option (ListItem P) × Bool)
  RenderSelection : Bool

/-- The arguments `context.NewTagsContext` receives, in order (the common helper
`gui.c` is read from the receiver). -/
structure TagsContext (P : Pkg) where
  getModel : Gui P → List P.Tag
  getView : Gui P → P.View
  getDisplayStrings : Gui P → Int → Int → List (List String)
  onFocus : Option (Hook P)
  onRenderToMain : Option (Hook P)
  onFocusLost : Option (Action P)

/-- The function `withDiffModeCheck`. -/
def withDiffModeCheck {P : Pkg} (env : Env P) (f : Action P) : Action P :=
  fun w =>
    if w.gui.State.Modes.Diffing.Active then
      env.invoke Routine.renderDiff w
    else
      f w

/-- The function `shouldShowGraph`; `Except.error` is the `log.Fatalf` exit. -/
def shouldShowGraph {P : Pkg} (gui : Gui P) : Except String Bool :=
  if gui.State.Modes.Filtering.Active then
    Except.ok false
  else
    let value := gui.c.UserConfig.Git.Log.ShowGraph
    if value = "always" then
      Except.ok true
    else if value = "never" then
      Except.ok false
    else if value = "when-maximised" then
      Except.ok (decide (gui.State.ScreenMode ≠ WindowMaximisation.SCREEN_NORMAL))
    else
      Except.error ("Unknown value for git.log.showGraph: " ++ value ++
        ". Expected one of: 'always', 'never', 'when-maximised'")

/-- The function `menuListContext`. -/
def menuListContext {P : Pkg} (env : Env P) : ListContext P :=
  { BaseContext :=
      { ViewName := "menu"
        WindowName := ""
        Key := "menu"
        Kind := ContextKind.PERSISTENT_POPUP
        OnGetOptionsMap := some env.getMenuOptions }
    GetItemsLength := fun gui => env.LinesHeight gui.Views.Menu
    OnGetPanelState := fun gui => gui.State.Panels.Menu
    OnFocus := none
    OnRenderToMain := none
    GetDisplayStrings := none
    SelectedItem := none
    RenderSelection := false }

/-- The function `filesListContext`. -/
def filesListContext {P : Pkg} (env : Env P) : ListContext P :=
  { BaseContext :=
      { ViewName := "files"
        WindowName := "files"
        Key := P.FILES_CONTEXT_KEY
        Kind := ContextKind.SIDE_CONTEXT
        OnGetOptionsMap := none }
    GetItemsLength := fun gui => env.FileTreeGetItemsLength gui.State.FileTreeViewModel
    OnGetPanelState := fun gui => gui.State.Panels.Files
    OnFocus := some (env.OnFocusWrapper (env.invoke Routine.onFocusFile))
    OnRenderToMain :=
      some (env.OnFocusWrapper (withDiffModeCheck env (env.invoke Routine.filesRenderToMain)))
    GetDisplayStrings := some (fun gui _startIdx _length =>
      let lines := env.RenderFileTree gui.State.FileTreeViewModel
        gui.State.Modes.Diffing.Ref gui.State.Submodules
      let mappedLines := lines.map (fun line => [line])
      Except.ok mappedLines)
    SelectedItem := some (fun gui =>
      let item := env.getSelectedFileNode gui
      (item.map ListItem.fileNode, item.isSome))
    RenderSelection := false }

/-- The function `branchesListContext`. -/
def branchesListContext {P : Pkg} (env : Env P) : ListContext P :=
  { BaseContext :=
      { ViewName := "branches"
        WindowName := "branches"
        Key := P.LOCAL_BRANCHES_CONTEXT_KEY
        Kind := ContextKind.SIDE_CONTEXT
        OnGetOptionsMap := none }
    GetItemsLength := fun gui => (gui.State.Branches.length : Int)
    OnGetPanelState := fun gui => gui.State.Panels.Branches
    OnFocus := none
    OnRenderToMain :=
      some (env.OnFocusWrapper (withDiffModeCheck env (env.invoke Routine.branchesRenderToMain)))
    GetDisplayStrings := some (fun gui _startIdx _length =>
      Except.ok (env.GetBranchListDisplayStrings gui.State.Branches
        (decide (gui.State.ScreenMode ≠ WindowMaximisation.SCREEN_NORMAL))
        gui.State.Modes.Diffing.Ref))
    SelectedItem := some (fun gui =>
      let item := env.getSelectedBranch gui
      (item.map ListItem.branch, item.isSome))
    RenderSelection := false }

/-- The function `remotesListContext`. -/
def remotesListContext {P : Pkg} (env : Env P) : ListContext P :=
  { BaseContext :=
      { ViewName := "branches"
        WindowName := "branches"
        Key := P.REMOTES_CONTEXT_KEY
        Kind := ContextKind.SIDE_CONTEXT
        OnGetOptionsMap := none }
    GetItemsLength := fun gui => (gui.State.Remotes.length : Int)
    OnGetPanelState := fun gui => gui.State.Panels.Remotes
    OnFocus := none
    OnRenderToMain :=
      some (env.OnFocusWrapper (withDiffModeCheck env (env.invoke Routine.remotesRenderToMain)))
    GetDisplayStrings := some (fun gui _startIdx _length =>
      Except.ok (env.GetRemoteListDisplayStrings gui.State.Remotes gui.State.Modes.Diffing.Ref))
    SelectedItem := some (fun gui =>
      let item := env.getSelectedRemote gui
      (item.map ListItem.remote, item.isSome))
    RenderSelection := false }

/-- The function `remoteBranchesListContext`. -/
def remoteBranchesListContext {P : Pkg} (env : Env P) : ListContext P :=
  { BaseContext :=
      { ViewName := "branches"
        WindowName := "branches"
        Key := P.REMOTE_BRANCHES_CONTEXT_KEY
        Kind := ContextKind.SIDE_CONTEXT
        OnGetOptionsMap := none }
    GetItemsLength := fun gui => (gui.State.RemoteBranches.length : Int)
    OnGetPanelState := fun gui => gui.State.Panels.RemoteBranches
    OnFocus := none
    OnRenderToMain :=
      some (env.OnFocusWrapper
        (withDiffModeCheck env (env.invoke Routine.remoteBranchesRenderToMain)))
    GetDisplayStrings := some (fun gui _startIdx _length =>
      Except.ok (env.GetRemoteBranchListDisplayStrings gui.State.RemoteBranches
        gui.State.Modes.Diffing.Ref))
    SelectedItem := some (fun gui =>
      let item := env.getSelectedRemoteBranch gui
      (item.map ListItem.remoteBranch, item.isSome))
    RenderSelection := false }

/-- The function `tagsListContext`. -/
def tagsListContext {P : Pkg} (env : Env P) : TagsContext P :=
  { getModel := fun gui => gui.State.Tags
    getView := fun gui => gui.Views.Branches
    getDisplayStrings := fun gui _startIdx _length =>
      env.GetTagListDisplayStrings gui.State.Tags gui.State.Modes.Diffing.Ref
    onFocus := none
    onRenderToMain :=
      some (env.OnFocusWrapper (withDiffModeCheck env (env.invoke Routine.tagsRenderToMain)))
    onFocusLost := none }

/-- The function `branchCommitsListContext`; `gui0` is the receiver when the context is constructed,
from which `parseEmoji` is read once. -/
def branchCommitsListContext {P : Pkg} (env : Env P) (gui0 : Gui P) : ListContext P :=
  let parseEmoji := gui0.c.UserConfig.Git.ParseEmoji
  { BaseContext :=
      { ViewName := "commits"
        WindowName := "commits"
        Key := P.BRANCH_COMMITS_CONTEXT_KEY
        Kind := ContextKind.SIDE_CONTEXT
        OnGetOptionsMap := none }
    GetItemsLength := fun gui => (gui.State.Commits.length : Int)
    OnGetPanelState := fun gui => gui.State.Panels.Commits
    OnFocus := some (env.OnFocusWrapper (env.invoke Routine.onCommitFocus))
    OnRenderToMain :=
      some (env.OnFocusWrapper
        (withDiffModeCheck env (env.invoke Routine.branchCommitsRenderToMain)))
    GetDisplayStrings := some (fun gui startIdx length =>
      let selectedCommitSha := ""
      let selectedCommitSha :=
        if env.currentContextKey gui = P.BRANCH_COMMITS_CONTEXT_KEY then
          match env.getSelectedLocalCommit gui with
          | some selectedCommit => P.Sha selectedCommit
          | none => selectedCommitSha
        else
          selectedCommitSha
      (shouldShowGraph gui).map (fun showGraph =>
        env.GetCommitListDisplayStrings
          { commits := gui.State.Commits
            fullDescription := decide (gui.State.ScreenMode ≠ WindowMaximisation.SCREEN_NORMAL)
            cherryPickedCommitShaMap := env.cherryPickedCommitShaMap gui
            diffName := gui.State.Modes.Diffing.Ref
            parseEmoji := parseEmoji
            selectedCommitSha := selectedCommitSha
            startIdx := startIdx
            length := length
            showGraph := showGraph
            bisectInfo := gui.State.BisectInfo }))
    SelectedItem := some (fun gui =>
      let item := env.getSelectedLocalCommit gui
      (item.map ListItem.commit, item.isSome))
    RenderSelection := true }

/-- The function `subCommitsListContext`; `gui0` is the receiver when the context is constructed,
from which `parseEmoji` is read once. -/
def subCommitsListContext {P : Pkg} (env : Env P) (gui0 : Gui P) : ListContext P :=
  let parseEmoji := gui0.c.UserConfig.Git.ParseEmoji
  { BaseContext :=
      { ViewName := "branches"
        WindowName := "branches"
        Key := P.SUB_COMMITS_CONTEXT_KEY
        Kind := ContextKind.SIDE_CONTEXT
        OnGetOptionsMap := none }
    GetItemsLength := fun gui => (gui.State.SubCommits.length : Int)
    OnGetPanelState := fun gui => gui.State.Panels.SubCommits
    OnFocus := none
    OnRenderToMain :=
      some (env.OnFocusWrapper
        (withDiffModeCheck env (env.invoke Routine.subCommitsRenderToMain)))
    GetDisplayStrings := some (fun gui startIdx length =>
      let selectedCommitSha := ""
      let selectedCommitSha :=
        if env.currentContextKey gui = P.SUB_COMMITS_CONTEXT_KEY then
          match env.getSelectedSubCommit gui with
          | some selectedCommit => P.Sha selectedCommit
          | none => selectedCommitSha
        else
          selectedCommitSha
      (shouldShowGraph gui).map (fun showGraph =>
        env.GetCommitListDisplayStrings
          { commits := gui.State.SubCommits
            fullDescription := decide (gui.State.ScreenMode ≠ WindowMaximisation.SCREEN_NORMAL)
            cherryPickedCommitShaMap := env.cherryPickedCommitShaMap gui
            diffName := gui.State.Modes.Diffing.Ref
            parseEmoji := parseEmoji
            selectedCommitSha := selectedCommitSha
            startIdx := startIdx
            length := length
            showGraph := showGraph
            bisectInfo := env.NewNullBisectInfo }))
    SelectedItem := some (fun gui =>
      let item := env.getSelectedSubCommit gui
      (item.map ListItem.commit, item.isSome))
    RenderSelection := true }

/-- The function `reflogCommitsListContext`; `gui0` is the receiver when the context is constructed,
from which `parseEmoji` is read once. -/
def reflogCommitsListContext {P : Pkg} (env : Env P) (gui0 : Gui P) : ListContext P :=
  let parseEmoji := gui0.c.UserConfig.Git.ParseEmoji
  { BaseContext :=
      { ViewName := "commits"
        WindowName := "commits"
        Key := P.REFLOG_COMMITS_CONTEXT_KEY
        Kind := ContextKind.SIDE_CONTEXT
        OnGetOptionsMap := none }
    GetItemsLength := fun gui => (gui.State.FilteredReflogCommits.length : Int)
    OnGetPanelState := fun gui => gui.State.Panels.ReflogCommits
    OnFocus := none
    OnRenderToMain :=
      some (env.OnFocusWrapper
        (withDiffModeCheck env (env.invoke Routine.reflogCommitsRenderToMain)))
    GetDisplayStrings := some (fun gui _startIdx _length =>
      Except.ok (env.GetReflogCommitListDisplayStrings
        gui.State.FilteredReflogCommits
        (decide (gui.State.ScreenMode ≠ WindowMaximisation.SCREEN_NORMAL))
        (env.cherryPickedCommitShaMap gui)
        gui.State.Modes.Diffing.Ref
        parseEmoji))
    SelectedItem := some (fun gui =>
      let item := env.getSelectedReflogCommit gui
      (item.map ListItem.commit, item.isSome))
    RenderSelection := false }

/-- The function `stashListContext`. -/
def stashListContext {P : Pkg} (env : Env P) : ListContext P :=
  { BaseContext :=
      { ViewName := "stash"
        WindowName := "stash"
        Key := P.STASH_CONTEXT_KEY
        Kind := ContextKind.SIDE_CONTEXT
        OnGetOptionsMap := none }
    GetItemsLength := fun gui => (gui.State.StashEntries.length : Int)
    OnGetPanelState := fun gui => gui.State.Panels.Stash
    OnFocus := none
    OnRenderToMain :=
      some (env.OnFocusWrapper (withDiffModeCheck env (env.invoke Routine.stashRenderToMain)))
    GetDisplayStrings := some (fun gui _startIdx _length =>
      Except.ok (env.GetStashEntryListDisplayStrings gui.State.StashEntries
        gui.State.Modes.Diffing.Ref))
    SelectedItem := some (fun gui =>
      let item := env.getSelectedStashEntry gui
      (item.map ListItem.stashEntry, item.isSome))
    RenderSelection := false }

/-- The function `commitFilesListContext`. -/
def commitFilesListContext {P : Pkg} (env : Env P) : ListContext P :=
  { BaseContext :=
      { ViewName := "commitFiles"
        WindowName := "commits"
        Key := P.COMMIT_FILES_CONTEXT_KEY
        Kind := ContextKind.SIDE_CONTEXT
        OnGetOptionsMap := none }
    GetItemsLength := fun gui =>
      env.CommitFileTreeGetItemsLength gui.State.CommitFileTreeViewModel
    OnGetPanelState := fun gui => gui.State.Panels.CommitFiles
    OnFocus := some (env.OnFocusWrapper (env.invoke Routine.onCommitFileFocus))
    OnRenderToMain :=
      some (env.OnFocusWrapper
        (withDiffModeCheck env (env.invoke Routine.commitFilesRenderToMain)))
    GetDisplayStrings := some (fun gui _startIdx _length =>
      if env.CommitFileTreeGetItemsLength gui.State.CommitFileTreeViewModel = 0 then
        Except.ok [[env.FgRedSprint "(none)"]]
      else
        let lines := env.RenderCommitFileTree gui.State.CommitFileTreeViewModel
          gui.State.Modes.Diffing.Ref gui.git.Patch.PatchManager
        let mappedLines := lines.map (fun line => [line])
        Except.ok mappedLines)
    SelectedItem := some (fun gui =>
      let item := env.getSelectedCommitFileNode gui
      (item.map ListItem.commitFileNode, item.isSome))
    RenderSelection := false }

/-- The function `submodulesListContext`. -/
def submodulesListContext {P : Pkg} (env : Env P) : ListContext P :=
  { BaseContext :=
      { ViewName := "files"
        WindowName := "files"
        Key := P.SUBMODULES_CONTEXT_KEY
        Kind := ContextKind.SIDE_CONTEXT
        OnGetOptionsMap := none }
    GetItemsLength := fun gui => (gui.State.Submodules.length : Int)
    OnGetPanelState := fun gui => gui.State.Panels.Submodules
    OnFocus := none
    OnRenderToMain :=
      some (env.OnFocusWrapper
        (withDiffModeCheck env (env.invoke Routine.submodulesRenderToMain)))
    GetDisplayStrings := some (fun gui _startIdx _length =>
      Except.ok (env.GetSubmoduleListDisplayStrings gui.State.Submodules))
    SelectedItem := some (fun gui =>
      let item := env.getSelectedSubmodule gui
      (item.map ListItem.submodule, item.isSome))
    RenderSelection := false }

/-- The function `suggestionsListContext`. -/
def suggestionsListContext {P : Pkg} (env : Env P) : ListContext P :=
  { BaseContext :=
      { ViewName := "suggestions"
        WindowName := "suggestions"
        Key := P.SUGGESTIONS_CONTEXT_KEY
        Kind := ContextKind.PERSISTENT_POPUP
        OnGetOptionsMap := none }
    GetItemsLength := fun gui => (gui.State.Suggestions.length : Int)
    OnGetPanelState := fun gui => gui.State.Panels.Suggestions
    OnFocus := none
    OnRenderToMain := none
    GetDisplayStrings := some (fun gui _startIdx _length =>
      Except.ok (env.GetSuggestionListDisplayStrings gui.State.Suggestions))
    SelectedItem := none
    RenderSelection := false }

/-- The interface `types.IListContext`, implemented by `*ListContext` and by
`*context.TagsContext`. -/
inductive IListContext (P : Pkg) where
  | list (c : ListContext P)
  | tags (c : TagsContext P)

/-- The struct `gui.State.Contexts`, as far as `getListContexts` reads it. -/
structure ContextTree (P : Pkg) where
  Menu : IListContext P
  Files : IListContext P
  Branches : IListContext P
  Remotes : IListContext P
  RemoteBranches : IListContext P
  Tags : IListContext P
  BranchCommits : IListContext P
  ReflogCommits : IListContext P
  SubCommits : IListContext P
  Stash : IListContext P
  CommitFiles : IListContext P
  Submodules : IListContext P
  Suggestions : IListContext P

/-- The function `getListContexts`. -/
def getListContexts {P : Pkg} (contexts : ContextTree P) : List (IListContext P) :=
  [ contexts.Menu, contexts.Files, contexts.Branches, contexts.Remotes,
    contexts.RemoteBranches, contexts.Tags, contexts.BranchCommits,
    contexts.ReflogCommits, contexts.SubCommits, contexts.Stash,
    contexts.CommitFiles, contexts.Submodules, contexts.Suggestions ]

/-- The context tree whose list contexts are the ones built by the constructors of
this file, `gui0` being the receiver at construction. -/
def constructedContexts {P : Pkg} (env : Env P) (gui0 : Gui P) : ContextTree P :=
  { Menu := IListContext.list (menuListContext env)
    Files := IListContext.list (filesListContext env)
    Branches := IListContext.list (branchesListContext env)
    Remotes := IListContext.list (remotesListContext env)
    RemoteBranches := IListContext.list (remoteBranchesListContext env)
    Tags := IListContext.tags (tagsListContext env)
    BranchCommits := IListContext.list (branchCommitsListContext env gui0)
    ReflogCommits := IListContext.list (reflogCommitsListContext env gui0)
    SubCommits := IListContext.list (subCommitsListContext env gui0)
    Stash := IListContext.list (stashListContext env)
    CommitFiles := IListContext.list (commitFilesListContext env)
    Submodules := IListContext.list (submodulesListContext env)
    Suggestions := IListContext.list (suggestionsListContext env) }

/-- The render-to-main hook of a list context, if it defines one. -/
def IListContext.renderToMain {P : Pkg} : IListContext P → Option (Hook P)
  | IListContext.list c => c.OnRenderToMain
  | IListContext.tags c => c.onRenderToMain

/-! ## The windowing contract of the specification -/

/-- The number of rows the specification asks of `GetDisplayStrings(startIndex, length)`:
`min(length, itemCount - startIndex)` when `startIndex < itemCount`, else none. -/
def windowRowCount (itemCount startIndex length : Int) : Int :=
  if startIndex < itemCount then min length (itemCount - startIndex) else 0

/-- The row formatters of package `presentation` produce one row per item of the
collection they are given, and the two tree renderers one line per item of the tree. -/
structure Env.RowPerItem {P : Pkg} (env : Env P) : Prop where
  fileTree : ∀ t ref subs,
    ((env.RenderFileTree t ref subs).length : Int) = env.FileTreeGetItemsLength t
  commitFileTree : ∀ t ref pm,
    ((env.RenderCommitFileTree t ref pm).length : Int) = env.CommitFileTreeGetItemsLength t
  branches : ∀ xs full ref, (env.GetBranchListDisplayStrings xs full ref).length = xs.length
  remotes : ∀ xs ref, (env.GetRemoteListDisplayStrings xs ref).length = xs.length
  remoteBranches : ∀ xs ref,
    (env.GetRemoteBranchListDisplayStrings xs ref).length = xs.length
  tags : ∀ xs ref, (env.GetTagListDisplayStrings xs ref).length = xs.length
  reflogCommits : ∀ xs full cherry ref emoji,
    (env.GetReflogCommitListDisplayStrings xs full cherry ref emoji).length = xs.length
  stashEntries : ∀ xs ref, (env.GetStashEntryListDisplayStrings xs ref).length = xs.length
  submodules : ∀ xs, (env.GetSubmoduleListDisplayStrings xs).length = xs.length
  suggestions : ∀ xs, (env.GetSuggestionListDisplayStrings xs).length = xs.length

/-- The wrapper `OnFocusWrapper` adapts a `func() error` to the hook signature by
ignoring the focus options. -/
def Env.WrapperForwards {P : Pkg} (env : Env P) : Prop :=
  ∀ (f : Action P) (opts : List P.OnFocusOpts), env.OnFocusWrapper f opts = f

/-- What the panels that render their whole list do at a window `(startIdx, length)`:
the renderer returns one row per item of the panel, whatever the window, so the row
count meets `windowRowCount` exactly when the panel is empty or the window starts at
`0` and is at least as long as the list. -/
def WholeListRows {P : Pkg} (c : ListContext P) (gui : Gui P) (startIdx length : Int) : Prop :=
  ∃ gds rows, c.GetDisplayStrings = some gds ∧
    gds gui startIdx length = Except.ok rows ∧
    (∀ s l, gds gui s l = Except.ok rows) ∧
    (rows.length : Int) = c.GetItemsLength gui ∧
    ((rows.length : Int) = windowRowCount (c.GetItemsLength gui) startIdx length ↔
      (c.GetItemsLength gui = 0 ∨ (startIdx = 0 ∧ c.GetItemsLength gui ≤ length)))

/-- The three recognised values of `git.log.showGraph`. -/
def recognisedShowGraph : List String := ["always", "never", "when-maximised"]

/-! ## A concrete instance, used to evaluate the definitions -/

/-- A concrete choice of the external types: items are their names. -/
def demoPkg : Pkg :=
  { FileNode := String
    CommitFileNode := String
    Branch := String
    Remote := String
    RemoteBranch := String
    Tag := String
    Commit := String
    StashEntry := String
    SubmoduleConfig := String
    Suggestion := String
    FileTreeViewModel := List String
    CommitFileTreeViewModel := List String
    BisectInfo := Unit
    PatchManager := Unit
    View := Nat
    ShaMap := List String
    OptionsMap := Unit
    OnFocusOpts := Unit
    IListPanelState := Int
    ContextCommon := Unit
    Sha := fun c => c
    FILES_CONTEXT_KEY := "files"
    LOCAL_BRANCHES_CONTEXT_KEY := "localBranches"
    REMOTES_CONTEXT_KEY := "remotes"
    REMOTE_BRANCHES_CONTEXT_KEY := "remoteBranches"
    BRANCH_COMMITS_CONTEXT_KEY := "commits"
    SUB_COMMITS_CONTEXT_KEY := "subCommits"
    REFLOG_COMMITS_CONTEXT_KEY := "reflogCommits"
    STASH_CONTEXT_KEY := "stash"
    COMMIT_FILES_CONTEXT_KEY := "commitFiles"
    SUBMODULES_CONTEXT_KEY := "submodules"
    SUGGESTIONS_CONTEXT_KEY := "suggestions" }

/-- One row per item: the row of an item is the single cell holding its name. -/
def demoRows (xs : List String) : List (List String) :=
  xs.map (fun x => [x])

/-- A concrete choice of the external functions: every routine succeeds and leaves
the GUI unchanged, every formatter yields one row per item, the commit formatter
yields the rows of the requested window, and the selected item of a panel is the
item at the panel's selected index. -/
def demoEnv (currentKey : String) : Env demoPkg :=
  { method := fun _ gui => (none, gui)
    OnFocusWrapper := fun f _ => f
    getMenuOptions := fun _ => ()
    LinesHeight := fun (v : Nat) => (v : Int)
    FileTreeGetItemsLength := fun (t : List String) => (t.length : Int)
    CommitFileTreeGetItemsLength := fun (t : List String) => (t.length : Int)
    currentContextKey := fun _ => currentKey
    cherryPickedCommitShaMap := fun _ => ([] : List String)
    NewNullBisectInfo := ()
    FgRedSprint := fun s => "\x1b[31m" ++ s ++ "\x1b[0m"
    RenderFileTree := fun (t : List String) _ _ => t
    RenderCommitFileTree := fun (t : List String) _ _ => t
    GetBranchListDisplayStrings := fun (xs : List String) _ _ => demoRows xs
    GetRemoteListDisplayStrings := fun (xs : List String) _ => demoRows xs
    GetRemoteBranchListDisplayStrings := fun (xs : List String) _ => demoRows xs
    GetTagListDisplayStrings := fun (xs : List String) _ => demoRows xs
    GetCommitListDisplayStrings := fun args =>
      let commits : List String := args.commits
      ((commits.drop args.startIdx.toNat).take args.length.toNat).map
        (fun c => [if c = args.selectedCommitSha then "* " ++ c else c])
    GetReflogCommitListDisplayStrings := fun (xs : List String) _ _ _ _ => demoRows xs
    GetStashEntryListDisplayStrings := fun (xs : List String) _ => demoRows xs
    GetSubmoduleListDisplayStrings := fun (xs : List String) => demoRows xs
    GetSuggestionListDisplayStrings := fun (xs : List String) => demoRows xs
    getSelectedFileNode := fun gui =>
      (gui.State.FileTreeViewModel : List String).get? (gui.State.Panels.Files : Int).toNat
    getSelectedBranch := fun gui =>
      (gui.State.Branches : List String).get? (gui.State.Panels.Branches : Int).toNat
    getSelectedRemote := fun gui =>
      (gui.State.Remotes : List String).get? (gui.State.Panels.Remotes : Int).toNat
    getSelectedRemoteBranch := fun gui =>
      (gui.State.RemoteBranches : List String).get?
        (gui.State.Panels.RemoteBranches : Int).toNat
    getSelectedLocalCommit := fun gui =>
      (gui.State.Commits : List String).get? (gui.State.Panels.Commits : Int).toNat
    getSelectedSubCommit := fun gui =>
      (gui.State.SubCommits : List String).get? (gui.State.Panels.SubCommits : Int).toNat
    getSelectedReflogCommit := fun gui =>
      (gui.State.FilteredReflogCommits : List String).get?
        (gui.State.Panels.ReflogCommits : Int).toNat
    getSelectedStashEntry := fun gui =>
      (gui.State.StashEntries : List String).get? (gui.State.Panels.Stash : Int).toNat
    getSelectedCommitFileNode := fun gui =>
      (gui.State.CommitFileTreeViewModel : List String).get?
        (gui.State.Panels.CommitFiles : Int).toNat
    getSelectedSubmodule := fun gui =>
      (gui.State.Submodules : List String).get? (gui.State.Panels.Submodules : Int).toNat }

/-- A GUI over the concrete instance: three branches, two commits, an empty
commit-file tree, and the given modes and configuration. -/
def demoGui (diffing filtering : Bool) (showGraph : String)
    (screenMode : WindowMaximisation) : Gui demoPkg :=
  { State :=
      { FileTreeViewModel := ["a.go"]
        CommitFileTreeViewModel := ([] : List String)
        Branches := ["master", "dev", "fix"]
        Remotes := ["origin"]
        RemoteBranches := []
        Tags := ["v1"]
        Commits := ["c0ffee", "decade"]
        SubCommits := ["c0ffee"]
        FilteredReflogCommits := []
        StashEntries := []
        Submodules := []
        Suggestions := []
        Modes :=
          { Diffing := { Ref := if diffing then "master" else "", active := diffing }
            Filtering := { active := filtering } }
        ScreenMode := screenMode
        BisectInfo := ()
        Panels :=
          { Menu := (0 : Int), Files := (0 : Int), Branches := (0 : Int), Remotes := (0 : Int),
            RemoteBranches := (0 : Int), Commits := (1 : Int), SubCommits := (0 : Int),
            ReflogCommits := (0 : Int), Stash := (0 : Int), CommitFiles := (0 : Int),
            Submodules := (0 : Int), Suggestions := (0 : Int) } }
    Views := { Menu := (0 : Nat), Branches := (0 : Nat) }
    c := { UserConfig := { Git := { ParseEmoji := false, Log := { ShowGraph := showGraph } } }
           common := () }
    git := { Patch := { PatchManager := () } } }

/-! ## Theorems -/

/-- With filtering active the function returns `false` before reading the configuration. -/
theorem shouldShowGraph_of_filtering {P : Pkg} (gui : Gui P)
    (h : gui.State.Modes.Filtering.Active = true) :
    shouldShowGraph gui = Except.ok false := by
  simp [shouldShowGraph, h]

/-- The `"always"` case of the switch. -/
theorem shouldShowGraph_of_always {P : Pkg} (gui : Gui P)
    (h : gui.State.Modes.Filtering.Active = false)
    (hv : gui.c.UserConfig.Git.Log.ShowGraph = "always") :
    shouldShowGraph gui = Except.ok true := by
  simp [shouldShowGraph, h, hv]

/-- The `"never"` case of the switch. -/
theorem shouldShowGraph_of_never {P : Pkg} (gui : Gui P)
    (h : gui.State.Modes.Filtering.Active = false)
    (hv : gui.c.UserConfig.Git.Log.ShowGraph = "never") :
    shouldShowGraph gui = Except.ok false := by
  simp [shouldShowGraph, h, hv]

/-- The `"when-maximised"` case of the switch. -/
theorem shouldShowGraph_of_whenMaximised {P : Pkg} (gui : Gui P)
    (h : gui.State.Modes.Filtering.Active = false)
    (hv : gui.c.UserConfig.Git.Log.ShowGraph = "when-maximised") :
    shouldShowGraph gui =
      Except.ok (decide (gui.State.ScreenMode ≠ WindowMaximisation.SCREEN_NORMAL)) := by
  simp [shouldShowGraph, h, hv]

/-- C1: for every render hook `f` and every state, `withDiffModeCheck(f)` runs
`renderDiff` (once, and not `f`) and returns its result when diff mode is active,
and runs `f` (once, and not `renderDiff`) and returns its result otherwise. The
second conjunct reads the ghost call log for a hook `f` that is the routine `r`
with an arbitrary body. -/
theorem withDiffModeCheck_dispatch {P : Pkg} (env : Env P) (w : World P) :
    (∀ f : Action P,
      withDiffModeCheck env f w =
        if w.gui.State.Modes.Diffing.Active = true then env.invoke Routine.renderDiff w
        else f w) ∧
    (∀ (r : Routine) (body : Gui P → GoError × Gui P),
      withDiffModeCheck env (instrument r body) w =
        if w.gui.State.Modes.Diffing.Active = true then
          ((env.method Routine.renderDiff w.gui).1,
            { gui := (env.method Routine.renderDiff w.gui).2
              calls := w.calls ++ [Routine.renderDiff] })
        else
          ((body w.gui).1, { gui := (body w.gui).2, calls := w.calls ++ [r] })) := by
  refine ⟨fun f => ?_, fun r body => ?_⟩
  · unfold withDiffModeCheck
    split <;> rfl
  · unfold withDiffModeCheck
    split <;> rfl

/-- C3: whenever filtering mode is active, `shouldShowGraph` returns `false`,
whatever the configured value (recognised or not) and the screen mode. -/
theorem shouldShowGraph_filtering {P : Pkg} (gui : Gui P)
    (h : gui.State.Modes.Filtering.Active = true) :
    shouldShowGraph gui = Except.ok false :=
  shouldShowGraph_of_filtering gui h

/-- C3 at filtering active, `showGraph = "always"` and a maximised screen. -/
theorem shouldShowGraph_filtering_witness :
    (demoGui false true "always" WindowMaximisation.SCREEN_FULL).State.Modes.Filtering.Active
        = true ∧
      (demoGui false true "always" WindowMaximisation.SCREEN_FULL).c.UserConfig.Git.Log.ShowGraph
        = "always" ∧
      shouldShowGraph (demoGui false true "always" WindowMaximisation.SCREEN_FULL)
        = Except.ok false :=
  ⟨rfl, rfl, shouldShowGraph_filtering _ rfl⟩

/-- C4: with filtering inactive, `"always"` resolves to `true`, `"never"` to `false`,
and `"when-maximised"` to `true` exactly when the screen mode is not `SCREEN_NORMAL`. -/
theorem shouldShowGraph_resolution {P : Pkg} (gui : Gui P)
    (h : gui.State.Modes.Filtering.Active = false) :
    (gui.c.UserConfig.Git.Log.ShowGraph = "always" →
      shouldShowGraph gui = Except.ok true) ∧
    (gui.c.UserConfig.Git.Log.ShowGraph = "never" →
      shouldShowGraph gui = Except.ok false) ∧
    (gui.c.UserConfig.Git.Log.ShowGraph = "when-maximised" →
      ∃ b, shouldShowGraph gui = Except.ok b ∧
        (b = true ↔ gui.State.ScreenMode ≠ WindowMaximisation.SCREEN_NORMAL)) := by
  refine ⟨shouldShowGraph_of_always gui h, shouldShowGraph_of_never gui h, fun hv => ?_⟩
  exact ⟨decide (gui.State.ScreenMode ≠ WindowMaximisation.SCREEN_NORMAL),
    shouldShowGraph_of_whenMaximised gui h hv, by simp⟩

/-- C4 at the three recognised values, half-screen mode for the first two and both
the normal and the half-screen mode for `"when-maximised"`. -/
theorem shouldShowGraph_resolution_witness :
    shouldShowGraph (demoGui false false "always" WindowMaximisation.SCREEN_NORMAL)
        = Except.ok true ∧
      shouldShowGraph (demoGui false false "never" WindowMaximisation.SCREEN_HALF)
        = Except.ok false ∧
      (∃ b, shouldShowGraph (demoGui false false "when-maximised" WindowMaximisation.SCREEN_HALF)
        = Except.ok b ∧
        (b = true ↔ (demoGui false false "when-maximised"
          WindowMaximisation.SCREEN_HALF).State.ScreenMode ≠ WindowMaximisation.SCREEN_NORMAL)) :=
  ⟨(shouldShowGraph_resolution
      (demoGui false false "always" WindowMaximisation.SCREEN_NORMAL) rfl).1 rfl,
    (shouldShowGraph_resolution
      (demoGui false false "never" WindowMaximisation.SCREEN_HALF) rfl).2.1 rfl,
    (shouldShowGraph_resolution
      (demoGui false false "when-maximised" WindowMaximisation.SCREEN_HALF) rfl).2.2 rfl⟩

/-- C5 as stated fails: with filtering active and the unrecognised value `"bogus"`,
`shouldShowGraph` returns `false` normally and does not end in the fatal error. -/
theorem shouldShowGraph_unrecognised_filtering :
    ¬ (∀ gui : Gui demoPkg, gui.c.UserConfig.Git.Log.ShowGraph ∉ recognisedShowGraph →
        ∃ msg, shouldShowGraph gui = Except.error msg) := by
  intro hall
  obtain ⟨msg, hmsg⟩ :=
    hall (demoGui false true "bogus" WindowMaximisation.SCREEN_NORMAL) (by decide)
  have hok : shouldShowGraph (demoGui false true "bogus" WindowMaximisation.SCREEN_NORMAL)
      = Except.ok false := shouldShowGraph_of_filtering _ rfl
  rw [hok] at hmsg
  cases hmsg

/-- C5, amended: when filtering is not active and the configured value is none of
`"always"`, `"never"`, `"when-maximised"`, `shouldShowGraph` ends in the fatal error,
whose message names the value; it yields no boolean. -/
theorem shouldShowGraph_unrecognised_fatal {P : Pkg} (gui : Gui P)
    (h : gui.State.Modes.Filtering.Active = false)
    (hv : gui.c.UserConfig.Git.Log.ShowGraph ∉ recognisedShowGraph) :
    shouldShowGraph gui =
        Except.error ("Unknown value for git.log.showGraph: " ++
          gui.c.UserConfig.Git.Log.ShowGraph ++
          ". Expected one of: 'always', 'never', 'when-maximised'") ∧
      ∀ b, shouldShowGraph gui ≠ Except.ok b := by
  simp only [recognisedShowGraph, List.mem_cons, List.mem_singleton, not_or,
    List.not_mem_nil, or_false] at hv
  obtain ⟨h1, h2, h3⟩ := hv
  have hfatal : shouldShowGraph gui =
      Except.error ("Unknown value for git.log.showGraph: " ++
        gui.c.UserConfig.Git.Log.ShowGraph ++
        ". Expected one of: 'always', 'never', 'when-maximised'") := by
    simp [shouldShowGraph, h, h1, h2, h3]
  refine ⟨hfatal, fun b hb => ?_⟩
  rw [hfatal] at hb
  cases hb

/-- C5 amended, at filtering inactive and the value `"bogus"`. -/
theorem shouldShowGraph_unrecognised_fatal_witness :
    shouldShowGraph (demoGui false false "bogus" WindowMaximisation.SCREEN_FULL) =
        Except.error ("Unknown value for git.log.showGraph: bogus" ++
          ". Expected one of: 'always', 'never', 'when-maximised'") ∧
      ∀ b, shouldShowGraph (demoGui false false "bogus" WindowMaximisation.SCREEN_FULL)
        ≠ Except.ok b :=
  shouldShowGraph_unrecognised_fatal
    (demoGui false false "bogus" WindowMaximisation.SCREEN_FULL) rfl (by decide)

/-- C10: when filtering is active or the configured value is one of `"always"`,
`"never"`, `"when-maximised"`, `shouldShowGraph` returns a boolean and does not
reach the fatal branch. -/
theorem shouldShowGraph_returns {P : Pkg} (gui : Gui P)
    (h : gui.State.Modes.Filtering.Active = true ∨
      gui.c.UserConfig.Git.Log.ShowGraph ∈ recognisedShowGraph) :
    (∃ b, shouldShowGraph gui = Except.ok b) ∧
      ∀ msg, shouldShowGraph gui ≠ Except.error msg := by
  have hret : ∃ b, shouldShowGraph gui = Except.ok b := by
    by_cases hf : gui.State.Modes.Filtering.Active = true
    · exact ⟨false, shouldShowGraph_of_filtering gui hf⟩
    · have hf0 : gui.State.Modes.Filtering.Active = false := by simpa using hf
      rcases h with h | h
      · exact absurd h hf
      · simp only [recognisedShowGraph, List.mem_cons, List.mem_singleton,
          List.not_mem_nil, or_false] at h
        rcases h with hv | hv | hv
        · exact ⟨true, shouldShowGraph_of_always gui hf0 hv⟩
        · exact ⟨false, shouldShowGraph_of_never gui hf0 hv⟩
        · exact ⟨_, shouldShowGraph_of_whenMaximised gui hf0 hv⟩
  refine ⟨hret, fun msg hmsg => ?_⟩
  obtain ⟨b, hb⟩ := hret
  rw [hb] at hmsg
  cases hmsg

/-- C10 at an unrecognised value with filtering active, where the result is `false`. -/
theorem shouldShowGraph_returns_witness :
    (∃ b, shouldShowGraph (demoGui false true "bogus" WindowMaximisation.SCREEN_HALF)
        = Except.ok b) ∧
      ∀ msg, shouldShowGraph (demoGui false true "bogus" WindowMaximisation.SCREEN_HALF)
        ≠ Except.error msg :=
  shouldShowGraph_returns (demoGui false true "bogus" WindowMaximisation.SCREEN_HALF)
    (Or.inl rfl)

/-- C6: when the commit-file tree has no items, the commit-files panel renders, for
`start = 0` and any `length`, exactly one row whose single cell is the red-styled
text `(none)`. -/
theorem commitFiles_placeholder {P : Pkg} (env : Env P) (gui : Gui P)
    (h : (commitFilesListContext env).GetItemsLength gui = 0) (length : Int) :
    ∃ gds rows, (commitFilesListContext env).GetDisplayStrings = some gds ∧
      gds gui 0 length = Except.ok rows ∧
      rows = [[env.FgRedSprint "(none)"]] ∧ rows.length = 1 := by
  have h0 : env.CommitFileTreeGetItemsLength gui.State.CommitFileTreeViewModel = 0 := h
  refine ⟨_, [[env.FgRedSprint "(none)"]], rfl, ?_, rfl, rfl⟩
  simp [h0]

/-- C6 at an empty commit-file tree and a window of five rows. -/
theorem commitFiles_placeholder_witness :
    (commitFilesListContext (demoEnv "commitFiles")).GetItemsLength
        (demoGui false false "always" WindowMaximisation.SCREEN_NORMAL) = 0 ∧
      (demoEnv "commitFiles").FgRedSprint "(none)" = "\x1b[31m(none)\x1b[0m" ∧
      ∃ gds rows, (commitFilesListContext (demoEnv "commitFiles")).GetDisplayStrings = some gds ∧
        gds (demoGui false false "always" WindowMaximisation.SCREEN_NORMAL) 0 5
          = Except.ok rows ∧
        rows = [[(demoEnv "commitFiles").FgRedSprint "(none)"]] ∧ rows.length = 1 :=
  ⟨rfl, by decide,
    commitFiles_placeholder (demoEnv "commitFiles")
      (demoGui false false "always" WindowMaximisation.SCREEN_NORMAL) rfl 5⟩

/-- C8: every `SelectedItem` accessor defined in this file returns, without any error
result, the item of its panel's selected-item getter together with a flag that is
true exactly when the getter returned an item. -/
theorem selectedItem_presence {P : Pkg} (env : Env P) (gui0 : Gui P) :
    (filesListContext env).SelectedItem = some (fun gui =>
        ((env.getSelectedFileNode gui).map ListItem.fileNode,
          (env.getSelectedFileNode gui).isSome)) ∧
    (branchesListContext env).SelectedItem = some (fun gui =>
        ((env.getSelectedBranch gui).map ListItem.branch,
          (env.getSelectedBranch gui).isSome)) ∧
    (remotesListContext env).SelectedItem = some (fun gui =>
        ((env.getSelectedRemote gui).map ListItem.remote,
          (env.getSelectedRemote gui).isSome)) ∧
    (remoteBranchesListContext env).SelectedItem = some (fun gui =>
        ((env.getSelectedRemoteBranch gui).map ListItem.remoteBranch,
          (env.getSelectedRemoteBranch gui).isSome)) ∧
    (branchCommitsListContext env gui0).SelectedItem = some (fun gui =>
        ((env.getSelectedLocalCommit gui).map ListItem.commit,
          (env.getSelectedLocalCommit gui).isSome)) ∧
    (subCommitsListContext env gui0).SelectedItem = some (fun gui =>
        ((env.getSelectedSubCommit gui).map ListItem.commit,
          (env.getSelectedSubCommit gui).isSome)) ∧
    (reflogCommitsListContext env gui0).SelectedItem = some (fun gui =>
        ((env.getSelectedReflogCommit gui).map ListItem.commit,
          (env.getSelectedReflogCommit gui).isSome)) ∧
    (stashListContext env).SelectedItem = some (fun gui =>
        ((env.getSelectedStashEntry gui).map ListItem.stashEntry,
          (env.getSelectedStashEntry gui).isSome)) ∧
    (commitFilesListContext env).SelectedItem = some (fun gui =>
        ((env.getSelectedCommitFileNode gui).map ListItem.commitFileNode,
          (env.getSelectedCommitFileNode gui).isSome)) ∧
    (submodulesListContext env).SelectedItem = some (fun gui =>
        ((env.getSelectedSubmodule gui).map ListItem.submodule,
          (env.getSelectedSubmodule gui).isSome)) ∧
    ∀ c ∈ [menuListContext env, filesListContext env, branchesListContext env,
        remotesListContext env, remoteBranchesListContext env,
        branchCommitsListContext env gui0, reflogCommitsListContext env gui0,
        subCommitsListContext env gui0, stashListContext env, commitFilesListContext env,
        submodulesListContext env, suggestionsListContext env],
      ∀ sel, c.SelectedItem = some sel →
        ∀ gui, (sel gui).2 = (sel gui).1.isSome := by
  refine ⟨rfl, rfl, rfl, rfl, rfl, rfl, rfl, rfl, rfl, rfl, ?_⟩
  intro c hc sel hsel gui
  simp only [List.mem_cons, List.mem_singleton, List.not_mem_nil, or_false] at hc
  rcases hc with rfl | rfl | rfl | rfl | rfl | rfl | rfl | rfl | rfl | rfl | rfl | rfl <;>
    first
    | (exact absurd hsel (by simp [menuListContext, suggestionsListContext]))
    | (injection hsel with hsel
       subst hsel
       simp)

/-- C9: the branch-commits and sub-commits panels pass `startIdx` and `length`
unchanged to the commit row renderer, and pass as selected SHA the `Sha` of the
panel's selected commit when the current context's key is the panel's own key and a
commit is selected, and the empty string in every other case; the renderer is
called when `shouldShowGraph` returns. -/
theorem commits_displayStrings_args {P : Pkg} (env : Env P) (gui0 gui : Gui P)
    (startIdx length : Int) :
    (∃ gds, (branchCommitsListContext env gui0).GetDisplayStrings = some gds ∧
      gds gui startIdx length =
        (shouldShowGraph gui).map (fun showGraph =>
          env.GetCommitListDisplayStrings
            { commits := gui.State.Commits
              fullDescription :=
                decide (gui.State.ScreenMode ≠ WindowMaximisation.SCREEN_NORMAL)
              cherryPickedCommitShaMap := env.cherryPickedCommitShaMap gui
              diffName := gui.State.Modes.Diffing.Ref
              parseEmoji := gui0.c.UserConfig.Git.ParseEmoji
              selectedCommitSha :=
                if env.currentContextKey gui =
                    (branchCommitsListContext env gui0).BaseContext.Key then
                  ((env.getSelectedLocalCommit gui).map P.Sha).getD ""
                else ""
              startIdx := startIdx
              length := length
              showGraph := showGraph
              bisectInfo := gui.State.BisectInfo })) ∧
    (∃ gds, (subCommitsListContext env gui0).GetDisplayStrings = some gds ∧
      gds gui startIdx length =
        (shouldShowGraph gui).map (fun showGraph =>
          env.GetCommitListDisplayStrings
            { commits := gui.State.SubCommits
              fullDescription :=
                decide (gui.State.ScreenMode ≠ WindowMaximisation.SCREEN_NORMAL)
              cherryPickedCommitShaMap := env.cherryPickedCommitShaMap gui
              diffName := gui.State.Modes.Diffing.Ref
              parseEmoji := gui0.c.UserConfig.Git.ParseEmoji
              selectedCommitSha :=
                if env.currentContextKey gui =
                    (subCommitsListContext env gui0).BaseContext.Key then
                  ((env.getSelectedSubCommit gui).map P.Sha).getD ""
                else ""
              startIdx := startIdx
              length := length
              showGraph := showGraph
              bisectInfo := env.NewNullBisectInfo })) := by
  refine ⟨⟨_, rfl, ?_⟩, ⟨_, rfl, ?_⟩⟩
  · simp only [branchCommitsListContext]
    cases env.getSelectedLocalCommit gui <;> rfl
  · simp only [subCommitsListContext]
    cases env.getSelectedSubCommit gui <;> rfl

/-- With diff mode active the wrapped hook is the invocation of `renderDiff`. -/
theorem withDiffModeCheck_active {P : Pkg} (env : Env P) (f : Action P) (w : World P)
    (hd : w.gui.State.Modes.Diffing.Active = true) :
    withDiffModeCheck env f w =
      ((env.method Routine.renderDiff w.gui).1,
        { gui := (env.method Routine.renderDiff w.gui).2
          calls := w.calls ++ [Routine.renderDiff] }) := by
  simp [withDiffModeCheck, hd, Env.invoke, instrument]

/-- C7: the render-to-main hooks of the list contexts built in this file are, in the
order of `getListContexts`, absent for the menu and the suggestions and otherwise
`withDiffModeCheck` around the panel's own renderer; with `OnFocusWrapper` forwarding
to the function it wraps, invoking any of them while diff mode is active runs
`renderDiff` once and no panel renderer, whatever the current context. -/
theorem renderToMain_diff_override {P : Pkg} (env : Env P) (hw : env.WrapperForwards)
    (gui0 : Gui P) (w : World P) (hd : w.gui.State.Modes.Diffing.Active = true)
    (opts : List P.OnFocusOpts) :
    (getListContexts (constructedContexts env gui0)).map IListContext.renderToMain =
      [ none,
        some (env.OnFocusWrapper
          (withDiffModeCheck env (env.invoke Routine.filesRenderToMain))),
        some (env.OnFocusWrapper
          (withDiffModeCheck env (env.invoke Routine.branchesRenderToMain))),
        some (env.OnFocusWrapper
          (withDiffModeCheck env (env.invoke Routine.remotesRenderToMain))),
        some (env.OnFocusWrapper
          (withDiffModeCheck env (env.invoke Routine.remoteBranchesRenderToMain))),
        some (env.OnFocusWrapper
          (withDiffModeCheck env (env.invoke Routine.tagsRenderToMain))),
        some (env.OnFocusWrapper
          (withDiffModeCheck env (env.invoke Routine.branchCommitsRenderToMain))),
        some (env.OnFocusWrapper
          (withDiffModeCheck env (env.invoke Routine.reflogCommitsRenderToMain))),
        some (env.OnFocusWrapper
          (withDiffModeCheck env (env.invoke Routine.subCommitsRenderToMain))),
        some (env.OnFocusWrapper
          (withDiffModeCheck env (env.invoke Routine.stashRenderToMain))),
        some (env.OnFocusWrapper
          (withDiffModeCheck env (env.invoke Routine.commitFilesRenderToMain))),
        some (env.OnFocusWrapper
          (withDiffModeCheck env (env.invoke Routine.submodulesRenderToMain))),
        none ] ∧
    ∀ c ∈ getListContexts (constructedContexts env gui0),
      ∀ hook, c.renderToMain = some hook →
        hook opts w =
          ((env.method Routine.renderDiff w.gui).1,
            { gui := (env.method Routine.renderDiff w.gui).2
              calls := w.calls ++ [Routine.renderDiff] }) := by
  refine ⟨rfl, ?_⟩
  intro c hc hook hhook
  simp only [getListContexts, constructedContexts, List.mem_cons, List.mem_singleton,
    List.not_mem_nil, or_false] at hc
  rcases hc with rfl | rfl | rfl | rfl | rfl | rfl | rfl | rfl | rfl | rfl | rfl | rfl | rfl <;>
    first
    | (simp [IListContext.renderToMain, menuListContext, suggestionsListContext] at hhook
       done)
    | (injection hhook with hhook
       subst hhook
       rw [hw]
       exact withDiffModeCheck_active env _ w hd)

/-- C7 at diff mode active, for the hook of the branches panel while the files panel
is the current context. -/
theorem renderToMain_diff_override_witness :
    (demoEnv "files").WrapperForwards ∧
      (demoGui true false "always"
        WindowMaximisation.SCREEN_NORMAL).State.Modes.Diffing.Active = true ∧
      ∃ hook, (branchesListContext (demoEnv "files")).OnRenderToMain = some hook ∧
        hook [()]
            { gui := demoGui true false "always" WindowMaximisation.SCREEN_NORMAL
              calls := [] } =
          (none,
            { gui := demoGui true false "always" WindowMaximisation.SCREEN_NORMAL
              calls := [Routine.renderDiff] }) :=
  ⟨fun _ _ => rfl, rfl, _, rfl,
    (renderToMain_diff_override (demoEnv "files") (fun _ _ => rfl)
      (demoGui false false "always" WindowMaximisation.SCREEN_NORMAL)
      { gui := demoGui true false "always" WindowMaximisation.SCREEN_NORMAL, calls := [] }
      rfl [()]).2
      (IListContext.list (branchesListContext (demoEnv "files")))
      (by simp [getListContexts, constructedContexts]) _ rfl⟩

/-- A renderer that returns the same rows at every window, as many as the panel has
items, renders the whole list in the sense of `WholeListRows`. -/
theorem wholeListRows_of_rows {P : Pkg} (c : ListContext P) (gui : Gui P)
    (startIdx length : Int) (hs : 0 ≤ startIdx)
    (gds : Gui P → Int → Int → Except String (List (List String)))
    (rows : List (List String))
    (hgds : c.GetDisplayStrings = some gds)
    (hall : ∀ s l, gds gui s l = Except.ok rows)
    (hlen : (rows.length : Int) = c.GetItemsLength gui) :
    WholeListRows c gui startIdx length := by
  refine ⟨gds, rows, hgds, hall _ _, hall, hlen, ?_⟩
  have hn : (0 : Int) ≤ c.GetItemsLength gui := by
    rw [← hlen]
    exact Int.ofNat_nonneg _
  rw [hlen]
  unfold windowRowCount
  split <;> omega

/-- C2 as stated fails: the branches panel with three branches, asked for the window
`(0, 1)`, returns three rows, not `min(1, 3 - 0) = 1`; that is more than `length`. -/
theorem branches_displayStrings_window :
    ∃ gds rows, (branchesListContext (demoEnv "localBranches")).GetDisplayStrings = some gds ∧
      (branchesListContext (demoEnv "localBranches")).GetItemsLength
        (demoGui false false "always" WindowMaximisation.SCREEN_NORMAL) = 3 ∧
      gds (demoGui false false "always" WindowMaximisation.SCREEN_NORMAL) 0 1
        = Except.ok rows ∧
      rows = [["master"], ["dev"], ["fix"]] ∧
      windowRowCount 3 0 1 = 1 ∧
      (rows.length : Int) ≠ windowRowCount 3 0 1 ∧
      (1 : Int) < rows.length :=
  ⟨_, [["master"], ["dev"], ["fix"]], rfl, rfl, rfl, rfl, by decide, by decide, by decide⟩

/-- C2, amended: with row formatters that yield one row per item, the files,
branches, remotes, remote-branches, tags, reflog-commits, stash, submodules and
suggestions panels, and the commit-files panel over a non-empty tree, return at every
window `(startIdx, length)` one row per item of the panel; the row count is the
`min(length, itemCount - startIdx)` of the contract exactly when the panel is empty
or `startIdx = 0` and `itemCount ≤ length`. -/
theorem displayStrings_whole_list {P : Pkg} (env : Env P) (hrows : env.RowPerItem)
    (gui0 gui : Gui P) (startIdx length : Int) (hs : 0 ≤ startIdx) :
    (∀ c ∈ [filesListContext env, branchesListContext env, remotesListContext env,
        remoteBranchesListContext env, reflogCommitsListContext env gui0,
        stashListContext env, submodulesListContext env, suggestionsListContext env],
      WholeListRows c gui startIdx length) ∧
    ((commitFilesListContext env).GetItemsLength gui ≠ 0 →
      WholeListRows (commitFilesListContext env) gui startIdx length) ∧
    (∀ s l, (tagsListContext env).getDisplayStrings gui s l =
        (tagsListContext env).getDisplayStrings gui startIdx length) ∧
    ((tagsListContext env).getDisplayStrings gui startIdx length).length =
      ((tagsListContext env).getModel gui).length := by
  refine ⟨?_, ?_, fun _ _ => rfl, hrows.tags _ _⟩
  · intro c hc
    simp only [List.mem_cons, List.mem_singleton, List.not_mem_nil, or_false] at hc
    rcases hc with rfl | rfl | rfl | rfl | rfl | rfl | rfl | rfl
    · refine wholeListRows_of_rows _ gui startIdx length hs _ _ rfl (fun _ _ => rfl) ?_
      simpa using hrows.fileTree _ _ _
    · refine wholeListRows_of_rows _ gui startIdx length hs _ _ rfl (fun _ _ => rfl) ?_
      exact congrArg Int.ofNat (hrows.branches _ _ _)
    · refine wholeListRows_of_rows _ gui startIdx length hs _ _ rfl (fun _ _ => rfl) ?_
      exact congrArg Int.ofNat (hrows.remotes _ _)
    · refine wholeListRows_of_rows _ gui startIdx length hs _ _ rfl (fun _ _ => rfl) ?_
      exact congrArg Int.ofNat (hrows.remoteBranches _ _)
    · refine wholeListRows_of_rows _ gui startIdx length hs _ _ rfl (fun _ _ => rfl) ?_
      exact congrArg Int.ofNat (hrows.reflogCommits _ _ _ _ _)
    · refine wholeListRows_of_rows _ gui startIdx length hs _ _ rfl (fun _ _ => rfl) ?_
      exact congrArg Int.ofNat (hrows.stashEntries _ _)
    · refine wholeListRows_of_rows _ gui startIdx length hs _ _ rfl (fun _ _ => rfl) ?_
      exact congrArg Int.ofNat (hrows.submodules _)
    · refine wholeListRows_of_rows _ gui startIdx length hs _ _ rfl (fun _ _ => rfl) ?_
      exact congrArg Int.ofNat (hrows.suggestions _)
  · intro hne
    have hne0 : env.CommitFileTreeGetItemsLength gui.State.CommitFileTreeViewModel ≠ 0 := hne
    refine wholeListRows_of_rows _ gui startIdx length hs _
      ((env.RenderCommitFileTree gui.State.CommitFileTreeViewModel
        gui.State.Modes.Diffing.Ref gui.git.Patch.PatchManager).map (fun line => [line]))
      rfl (fun _ _ => ?_) ?_
    · simp [hne0]
    · simpa using hrows.commitFileTree _ _ _

/-- The concrete formatters yield one row per item. -/
theorem demoEnv_rowPerItem (currentKey : String) : (demoEnv currentKey).RowPerItem :=
  { fileTree := fun _ _ _ => rfl
    commitFileTree := fun _ _ _ => rfl
    branches := fun _ _ _ => List.length_map _ _
    remotes := fun _ _ => List.length_map _ _
    remoteBranches := fun _ _ => List.length_map _ _
    tags := fun _ _ => List.length_map _ _
    reflogCommits := fun _ _ _ _ _ => List.length_map _ _
    stashEntries := fun _ _ => List.length_map _ _
    submodules := fun _ => List.length_map _ _
    suggestions := fun _ => List.length_map _ _ }

/-- C2 amended, at the window `(0, 1)` over the concrete GUI with three branches. -/
theorem displayStrings_whole_list_witness :
    WholeListRows (branchesListContext (demoEnv "localBranches"))
      (demoGui false false "always" WindowMaximisation.SCREEN_NORMAL) 0 1 :=
  (displayStrings_whole_list (demoEnv "localBranches") (demoEnv_rowPerItem "localBranches")
    (demoGui false false "always" WindowMaximisation.SCREEN_NORMAL)
    (demoGui false false "always" WindowMaximisation.SCREEN_NORMAL) 0 1
    (by decide)).1 _ (by simp)

end Lazygit
